import Mathlib

/-!
Verification of the lazynmap scan core: the configuration model
(`src/scan/model.rs`), the command builder (`src/scan/builder.rs`), the
command parser (`src/scan/parser.rs`) and the field registry
(`src/scan/flags.rs`) are embedded shallowly below; the theorems at the end
of the file settle the specification claims about them.

Rust string operations are modelled at the character-list level
(`String.data`): Rust's `split(',')`, `starts_with`, `contains(char)` and
byte slicing are all character-based on the ASCII data handled here, so the
embeddings agree with the source semantics.
-/

/-! ## Character-level string utilities (models of the Rust std operations
used by the source) -/

/-- Model of Rust `str::starts_with` at the character level:
`leads p s` holds when `p` is an initial segment of `s`. -/
def leads : List Char → List Char → Bool
  | [], _ => true
  | _ :: _, [] => false
  | p :: ps, c :: cs => p = c && leads ps cs

/-- Model of Rust `str::starts_with(pat)` for string patterns. -/
def starts_with (s pat : String) : Bool :=
  leads pat.data s.data

/-- Model of Rust `str::split(sep)` for a character separator: splits into
the (possibly empty) pieces between occurrences of `sep`; the empty string
yields one empty piece, exactly as in Rust. -/
def split_on_char (sep : Char) : List Char → List (List Char)
  | [] => [[]]
  | c :: cs =>
    match split_on_char sep cs with
    | [] => [[c]]
    | h :: t => if c = sep then [] :: h :: t else (c :: h) :: t

/-- Rust `s.split(',')` collected to a list of strings. -/
def split_comma (s : String) : List String :=
  (split_on_char ',' s.data).map fun l => ⟨l⟩

/-- Character-level model of byte slicing `&flag[2..]` (all flags sliced by
the source are ASCII, where bytes and characters coincide). -/
def drop_chars (s : String) (n : Nat) : String :=
  ⟨s.data.drop n⟩

/-- Character-level model of Rust `str::len` (used only on ASCII flag
tokens, where byte length equals character count). -/
def char_len (s : String) : Nat :=
  s.data.length

/-- Value of a list of decimal digit characters. -/
def digits_val (l : List Char) : Nat :=
  l.foldl (fun a c => a * 10 + (c.toNat - 48)) 0

/-- Model of Rust `str::parse::<uN>()`: an optional leading `+`, then one
or more ASCII digits, with the value at most `bound` (the maximum of the
unsigned integer type); anything else is rejected. -/
def rust_parse_uint (bound : Nat) (s : String) : Option Nat :=
  let body := if leads ['+'] s.data then s.data.drop 1 else s.data
  if body ≠ [] && body.all Char.isDigit then
    if digits_val body ≤ bound then some (digits_val body) else none
  else none

/-! ## The configuration model (`src/scan/model.rs`) -/

/-- Model of `std::net::IpAddr` restricted to the IPv4 form; IPv6 textual
forms are not modelled (no claim depends on them). -/
inductive IpAddr where
  | v4 (a b c d : Nat)
deriving DecidableEq

/-- Modelled from the std library: strict parsing of one IPv4 octet
(decimal digits only, no leading zeros, value at most 255). -/
def parse_octet (s : List Char) : Option Nat :=
  if s ≠ [] && s.all Char.isDigit && (s.length = 1 || leads ['0'] s = false)
      && digits_val s ≤ 255 then
    some (digits_val s)
  else none

/-- Modelled from the std library: `IpAddr::from_str` for dotted-quad IPv4
text; other forms (IPv6) are rejected by this model. -/
def ipaddr_from_str (s : String) : Option IpAddr :=
  match split_on_char '.' s.data with
  | [a, b, c, d] =>
    match parse_octet a, parse_octet b, parse_octet c, parse_octet d with
    | some a, some b, some c, some d => some (.v4 a b c d)
    | _, _, _, _ => none
  | _ => none

/-- Display of an `IpAddr` (std's dotted-quad rendering). -/
def IpAddr.render : IpAddr → String
  | .v4 a b c d =>
    toString a ++ "." ++ toString b ++ "." ++ toString c ++ "." ++ toString d

structure TargetSpecification where
  targets : List String := []
  input_file : Option String := none
  random_targets : Option Nat := none
  exclude : List String := []
  exclude_file : Option String := none
deriving DecidableEq

structure HostDiscovery where
  list_scan : Bool := false
  ping_scan : Bool := false
  skip_port_scan : Bool := false
  syn_discovery : List Nat := []
  ack_discovery : List Nat := []
  udp_discovery : List Nat := []
  sctp_discovery : List Nat := []
  icmp_echo : Bool := false
  icmp_timestamp : Bool := false
  icmp_netmask : Bool := false
  ip_protocol_ping : List Nat := []
  dns_servers : List String := []
  system_dns : Bool := false
  traceroute : Bool := false
deriving DecidableEq

inductive SctpScanType where
  | Init
  | Cookie
deriving DecidableEq

inductive ScanTechnique where
  | Syn
  | Connect
  | Ack
  | Window
  | Maimon
  | Udp
  | TcpNull
  | Fin
  | Xmas
  | Scanflags (flags : String)
  | Idle (zombie : String)
  | Sctp (t : SctpScanType)
  | IpProtocol
  | Ftp (relay : String)
  | Multiple (techniques : List ScanTechnique)

structure PortSpecification where
  ports : Option String := none
  exclude_ports : Option String := none
  fast_mode : Bool := false
  consecutive_ports : Bool := false
  top_ports : Option Nat := none
  portRatioVal : Option Rat := none
deriving DecidableEq

structure ServiceDetection where
  enabled : Bool := false
  intensity : Option Nat := none
  light : Bool := false
  all : Bool := false
  trace : Bool := false
deriving DecidableEq

structure ScriptScan where
  default : Bool := false
  scripts : List String := []
  script_args : Option String := none
  script_args_file : Option String := none
  script_trace : Bool := false
  script_updatedb : Bool := false
  script_help : Option String := none
deriving DecidableEq

structure OsDetection where
  enabled : Bool := false
  limit : Bool := false
  guess : Bool := false
  max_retries : Option Nat := none
deriving DecidableEq

inductive TimingTemplate where
  | Paranoid
  | Sneaky
  | Polite
  | Normal
  | Aggressive
  | Insane
deriving DecidableEq

/-- The numeric discriminant of a timing template (`TimingTemplate as u8`). -/
def TimingTemplate.toNat : TimingTemplate → Nat
  | .Paranoid => 0
  | .Sneaky => 1
  | .Polite => 2
  | .Normal => 3
  | .Aggressive => 4
  | .Insane => 5

structure TimingPerformance where
  template : Option TimingTemplate := none
  min_hostgroup : Option Nat := none
  max_hostgroup : Option Nat := none
  min_parallelism : Option Nat := none
  max_parallelism : Option Nat := none
  min_rtt_timeout : Option String := none
  max_rtt_timeout : Option String := none
  initial_rtt_timeout : Option String := none
  max_retries : Option Nat := none
  host_timeout : Option String := none
  script_timeout : Option String := none
  scan_delay : Option String := none
  max_scan_delay : Option String := none
  min_rate : Option Nat := none
  max_rate : Option Nat := none
  defeat_rst_ratelimit : Bool := false
  defeat_icmp_ratelimit : Bool := false
  nsock_engine : Option String := none
deriving DecidableEq

structure EvasionSpoofing where
  fragment_packets : Bool := false
  mtu : Option Nat := none
  decoys : List String := []
  spoof_ip : Option IpAddr := none
  interface : Option String := none
  source_port : Option Nat := none
  data : Option String := none
  data_string : Option String := none
  data_length : Option Nat := none
  ip_options : Option String := none
  ttl : Option Nat := none
  randomize_hosts : Bool := false
  spoof_mac : Option String := none
  badsum : Bool := false
  adler32 : Bool := false
deriving DecidableEq

structure OutputOptions where
  normal : Option String := none
  xml : Option String := none
  script_kiddie : Option String := none
  grepable : Option String := none
  all_formats : Option String := none
  verbose : Nat := 0
  debug : Nat := 0
  reason : Bool := false
  stats_every : Option String := none
  packet_trace : Bool := false
  open_only : Bool := false
  iflist : Bool := false
  append_output : Bool := false
  resume : Option String := none
  stylesheet : Option String := none
  webxml : Bool := false
  no_stylesheet : Bool := false
deriving DecidableEq

structure MiscOptions where
  ipv6 : Bool := false
  aggressive : Bool := false
  datadir : Option String := none
  send_eth : Bool := false
  send_ip : Bool := false
  privileged : Bool := false
  unprivileged : Bool := false
  release_memory : Bool := false
  version : Bool := false
  help : Bool := false
  resolve_all : Bool := false
  no_resolve : Bool := false
  unique : Bool := false
  log_errors : Bool := false
deriving DecidableEq

structure NmapScan where
  target_specification : TargetSpecification := {}
  host_discovery : HostDiscovery := {}
  scan_technique : ScanTechnique := .Syn
  ports : PortSpecification := {}
  service_detection : ServiceDetection := {}
  script_scan : ScriptScan := {}
  os_detection : OsDetection := {}
  timing : TimingPerformance := {}
  evasion : EvasionSpoofing := {}
  output : OutputOptions := {}
  misc : MiscOptions := {}

/-- `NmapScan::new`, which is `Default::default()`: every group at its
all-default value and the scan technique at its `#[default]` variant
`Syn`. -/
def NmapScan.new : NmapScan := {}

/-- Model of `u8::saturating_add` on the `verbose`/`debug` counters. -/
def sat_add8 (a b : Nat) : Nat :=
  min (a + b) 255

/-! ## The command builder (`src/scan/builder.rs`) -/

namespace NmapCommandBuilder

/-- `format_port_list`: decimal rendering of the ports, comma-joined. -/
def format_port_list (ports : List Nat) : String :=
  String.intercalate "," (ports.map toString)

/-- `format_protocol_list`: decimal rendering of the protocols, comma-joined. -/
def format_protocol_list (protocols : List Nat) : String :=
  String.intercalate "," (protocols.map toString)

/-- The characters in a value; `escape_quotes` doubles every `"` into
`\"`, exactly like `s.replace('"', "\\\"")` (a character pattern). -/
def escape_quotes : List Char → List Char
  | [] => []
  | c :: cs => if c = '"' then '\\' :: '"' :: escape_quotes cs else c :: escape_quotes cs

/-- `quote_if_needed`: wrap in double quotes (escaping embedded quotes)
exactly when the value contains a space, tab or double quote. -/
def quote_if_needed (s : String) : String :=
  if s.data.contains ' ' || s.data.contains '\t' || s.data.contains '"' then
    "\"" ++ (⟨escape_quotes s.data⟩ : String) ++ "\""
  else s

/-- The `for _ in 0..n { cmd.push_str(t) }` loops of `build_output`:
append `n` copies of the token `t`. -/
def repeat_frag (n : Nat) (t : String) : String :=
  match n with
  | 0 => ""
  | n + 1 => t ++ repeat_frag n t

/-- `quote_path`: paths are quoted by the same rule (`to_string_lossy` is
the identity on the UTF-8 strings modelled here). -/
def quote_path (path : String) : String :=
  quote_if_needed path

/-- Modelled from the std library: the `Display` rendering of the `f32`
`--port-ratio` value, abstracted as a plain decimal rendering of the
rational (no claim depends on its exact text). -/
def render_ratio (q : Rat) : String :=
  toString q.num ++ "/" ++ toString q.den

def build_host_discovery (cmd : String) (hd : HostDiscovery) : String :=
  cmd
    ++ (if hd.list_scan then " -sL" else "")
    ++ (if hd.ping_scan then " -sn" else "")
    ++ (if hd.skip_port_scan then " -Pn" else "")
    ++ (if hd.syn_discovery.isEmpty then "" else " -PS" ++ format_port_list hd.syn_discovery)
    ++ (if hd.ack_discovery.isEmpty then "" else " -PA" ++ format_port_list hd.ack_discovery)
    ++ (if hd.udp_discovery.isEmpty then "" else " -PU" ++ format_port_list hd.udp_discovery)
    ++ (if hd.sctp_discovery.isEmpty then "" else " -PY" ++ format_port_list hd.sctp_discovery)
    ++ (if hd.icmp_echo then " -PE" else "")
    ++ (if hd.icmp_timestamp then " -PP" else "")
    ++ (if hd.icmp_netmask then " -PM" else "")
    ++ (if hd.ip_protocol_ping.isEmpty then ""
        else " -PO" ++ format_protocol_list hd.ip_protocol_ping)
    ++ (if hd.traceroute then " --traceroute" else "")
    ++ (if hd.dns_servers.isEmpty then ""
        else " --dns-servers " ++ String.intercalate "," hd.dns_servers)
    ++ (if hd.system_dns then " --system-dns" else "")

mutual

def build_scan_technique (cmd : String) (st : ScanTechnique) : String :=
  match st with
  | .Syn => cmd ++ " -sS"
  | .Connect => cmd ++ " -sT"
  | .Ack => cmd ++ " -sA"
  | .Window => cmd ++ " -sW"
  | .Maimon => cmd ++ " -sM"
  | .Udp => cmd ++ " -sU"
  | .TcpNull => cmd ++ " -sN"
  | .Fin => cmd ++ " -sF"
  | .Xmas => cmd ++ " -sX"
  | .Scanflags flags => cmd ++ " --scanflags " ++ quote_if_needed flags
  | .Idle zombie => cmd ++ " -sI " ++ quote_if_needed zombie
  | .Sctp .Init => cmd ++ " -sY"
  | .Sctp .Cookie => cmd ++ " -sZ"
  | .IpProtocol => cmd ++ " -sO"
  | .Ftp relay => cmd ++ " -b " ++ quote_if_needed relay
  | .Multiple techniques => cmd ++ build_scan_list techniques

def build_scan_list : List ScanTechnique → String
  | [] => ""
  | t :: ts => build_scan_technique "" t ++ build_scan_list ts

end

def build_port_specification (cmd : String) (ps : PortSpecification) : String :=
  cmd
    ++ (match ps.ports with
        | some p => " -p " ++ quote_if_needed p
        | none => "")
    ++ (match ps.exclude_ports with
        | some e => " --exclude-ports " ++ quote_if_needed e
        | none => "")
    ++ (if ps.fast_mode then " -F" else "")
    ++ (if ps.consecutive_ports then " -r" else "")
    ++ (match ps.top_ports with
        | some t => " --top-ports " ++ toString t
        | none => "")
    ++ (match ps.portRatioVal with
        | some r => " --port-ratio " ++ render_ratio r
        | none => "")

def build_service_detection (cmd : String) (sd : ServiceDetection) : String :=
  cmd
    ++ (if sd.enabled then " -sV" else "")
    ++ (match sd.intensity with
        | some i => " --version-intensity " ++ toString i
        | none => "")
    ++ (if sd.light then " --version-light" else "")
    ++ (if sd.all then " --version-all" else "")
    ++ (if sd.trace then " --version-trace" else "")

def build_script_scan (cmd : String) (ss : ScriptScan) : String :=
  cmd
    ++ (if ss.default then " -sC" else "")
    ++ (if ss.scripts.isEmpty then "" else " --script " ++ String.intercalate "," ss.scripts)
    ++ (match ss.script_args with
        | some a => " --script-args " ++ quote_if_needed a
        | none => "")
    ++ (match ss.script_args_file with
        | some f => " --script-args-file " ++ quote_path f
        | none => "")
    ++ (if ss.script_trace then " --script-trace" else "")
    ++ (if ss.script_updatedb then " --script-updatedb" else "")
    ++ (match ss.script_help with
        | some h => " --script-help " ++ quote_if_needed h
        | none => "")

def build_os_detection (cmd : String) (od : OsDetection) : String :=
  cmd
    ++ (if od.enabled then " -O" else "")
    ++ (if od.limit then " --osscan-limit" else "")
    ++ (if od.guess then " --osscan-guess" else "")
    ++ (match od.max_retries with
        | some m => " --max-os-tries " ++ toString m
        | none => "")

def build_timing_performance (cmd : String) (tp : TimingPerformance) : String :=
  cmd
    ++ (match tp.template with
        | some t => " -T" ++ toString t.toNat
        | none => "")
    ++ (match tp.min_hostgroup with
        | some v => " --min-hostgroup " ++ toString v
        | none => "")
    ++ (match tp.max_hostgroup with
        | some v => " --max-hostgroup " ++ toString v
        | none => "")
    ++ (match tp.min_parallelism with
        | some v => " --min-parallelism " ++ toString v
        | none => "")
    ++ (match tp.max_parallelism with
        | some v => " --max-parallelism " ++ toString v
        | none => "")
    ++ (match tp.min_rtt_timeout with
        | some v => " --min-rtt-timeout " ++ quote_if_needed v
        | none => "")
    ++ (match tp.max_rtt_timeout with
        | some v => " --max-rtt-timeout " ++ quote_if_needed v
        | none => "")
    ++ (match tp.initial_rtt_timeout with
        | some v => " --initial-rtt-timeout " ++ quote_if_needed v
        | none => "")
    ++ (match tp.max_retries with
        | some v => " --max-retries " ++ toString v
        | none => "")
    ++ (match tp.host_timeout with
        | some v => " --host-timeout " ++ quote_if_needed v
        | none => "")
    ++ (match tp.script_timeout with
        | some v => " --script-timeout " ++ quote_if_needed v
        | none => "")
    ++ (match tp.scan_delay with
        | some v => " --scan-delay " ++ quote_if_needed v
        | none => "")
    ++ (match tp.max_scan_delay with
        | some v => " --max-scan-delay " ++ quote_if_needed v
        | none => "")
    ++ (match tp.min_rate with
        | some v => " --min-rate " ++ toString v
        | none => "")
    ++ (match tp.max_rate with
        | some v => " --max-rate " ++ toString v
        | none => "")
    ++ (if tp.defeat_rst_ratelimit then " --defeat-rst-ratelimit" else "")
    ++ (if tp.defeat_icmp_ratelimit then " --defeat-icmp-ratelimit" else "")
    ++ (match tp.nsock_engine with
        | some v => " --nsock-engine " ++ quote_if_needed v
        | none => "")

def build_evasion_spoofing (cmd : String) (es : EvasionSpoofing) : String :=
  cmd
    ++ (if es.fragment_packets then " -f" else "")
    ++ (match es.mtu with
        | some v => " --mtu " ++ toString v
        | none => "")
    ++ (if es.decoys.isEmpty then "" else " -D " ++ String.intercalate "," es.decoys)
    ++ (match es.spoof_ip with
        | some ip => " -S " ++ ip.render
        | none => "")
    ++ (match es.interface with
        | some v => " -e " ++ quote_if_needed v
        | none => "")
    ++ (match es.source_port with
        | some v => " -g " ++ toString v
        | none => "")
    ++ (match es.data with
        | some v => " --data " ++ quote_if_needed v
        | none => "")
    ++ (match es.data_string with
        | some v => " --data-string " ++ quote_if_needed v
        | none => "")
    ++ (match es.data_length with
        | some v => " --data-length " ++ toString v
        | none => "")
    ++ (match es.ip_options with
        | some v => " --ip-options " ++ quote_if_needed v
        | none => "")
    ++ (match es.ttl with
        | some v => " --ttl " ++ toString v
        | none => "")
    ++ (if es.randomize_hosts then " --randomize-hosts" else "")
    ++ (match es.spoof_mac with
        | some v => " --spoof-mac " ++ quote_if_needed v
        | none => "")
    ++ (if es.badsum then " --badsum" else "")
    ++ (if es.adler32 then " --adler32" else "")

def build_output (cmd : String) (out : OutputOptions) : String :=
  cmd
    ++ (match out.normal with
        | some v => " -oN " ++ quote_path v
        | none => "")
    ++ (match out.xml with
        | some v => " -oX " ++ quote_path v
        | none => "")
    ++ (match out.script_kiddie with
        | some v => " -oS " ++ quote_path v
        | none => "")
    ++ (match out.grepable with
        | some v => " -oG " ++ quote_path v
        | none => "")
    ++ (match out.all_formats with
        | some v => " -oA " ++ quote_if_needed v
        | none => "")
    ++ (match out.verbose with
        | 0 => ""
        | 1 => " -v"
        | 2 => " -vv"
        | n => repeat_frag n " -v")
    ++ (match out.debug with
        | 0 => ""
        | 1 => " -d"
        | 2 => " -dd"
        | n => repeat_frag n " -d")
    ++ (if out.reason then " --reason" else "")
    ++ (match out.stats_every with
        | some v => " --stats-every " ++ quote_if_needed v
        | none => "")
    ++ (if out.packet_trace then " --packet-trace" else "")
    ++ (if out.open_only then " --open" else "")
    ++ (if out.iflist then " --iflist" else "")
    ++ (if out.append_output then " --append-output" else "")
    ++ (match out.resume with
        | some v => " --resume " ++ quote_path v
        | none => "")
    ++ (match out.stylesheet with
        | some v => " --stylesheet " ++ quote_path v
        | none => "")
    ++ (if out.webxml then " --webxml" else "")
    ++ (if out.no_stylesheet then " --no-stylesheet" else "")

def build_misc (cmd : String) (misc : MiscOptions) : String :=
  cmd
    ++ (if misc.ipv6 then " -6" else "")
    ++ (if misc.aggressive then " -A" else "")
    ++ (match misc.datadir with
        | some v => " --datadir " ++ quote_path v
        | none => "")
    ++ (if misc.send_eth then " --send-eth" else "")
    ++ (if misc.send_ip then " --send-ip" else "")
    ++ (if misc.privileged then " --privileged" else "")
    ++ (if misc.unprivileged then " --unprivileged" else "")
    ++ (if misc.release_memory then " --release-memory" else "")
    ++ (if misc.version then " -V" else "")
    ++ (if misc.help then " -h" else "")
    ++ (if misc.resolve_all then " -R" else "")
    ++ (if misc.no_resolve then " -n" else "")
    ++ (if misc.unique then " --unique" else "")
    ++ (if misc.log_errors then " --log-errors" else "")

/-- `build_target_specification`; the source reads the target fields off
`scan` directly, which are the fields of `scan.target_specification`. -/
def build_target_specification (cmd : String) (scan : NmapScan) : String :=
  cmd
    ++ (match scan.target_specification.input_file with
        | some v => " -iL " ++ quote_path v
        | none => "")
    ++ (match scan.target_specification.random_targets with
        | some v => " -iR " ++ toString v
        | none => "")
    ++ (if scan.target_specification.exclude.isEmpty then ""
        else " --exclude " ++ String.intercalate "," scan.target_specification.exclude)
    ++ (match scan.target_specification.exclude_file with
        | some v => " --exclude-file " ++ quote_path v
        | none => "")
    ++ String.join (scan.target_specification.targets.map fun t => " " ++ quote_if_needed t)

/-- `NmapCommandBuilder::build`: the fixed section order of the source. -/
def build (scan : NmapScan) : String :=
  let cmd := "nmap"
  let cmd := build_host_discovery cmd scan.host_discovery
  let cmd := build_scan_technique cmd scan.scan_technique
  let cmd := build_port_specification cmd scan.ports
  let cmd := build_service_detection cmd scan.service_detection
  let cmd := build_script_scan cmd scan.script_scan
  let cmd := build_os_detection cmd scan.os_detection
  let cmd := build_timing_performance cmd scan.timing
  let cmd := build_evasion_spoofing cmd scan.evasion
  let cmd := build_output cmd scan.output
  let cmd := build_misc cmd scan.misc
  let cmd := build_target_specification cmd scan
  cmd

end NmapCommandBuilder

/-! ## The command parser (`src/scan/parser.rs`) -/

inductive ParseError where
  | InvalidFlag (flag : String)
  | InvalidValue (flag : String) (val : String)
  | MissingValue (flag : String)
  | ConflictingFlags (f1 f2 : String)
deriving DecidableEq

namespace NmapParser

/-- The tokenizer loop of `NmapParser::tokenize`: `inq` is `in_quotes`,
`cur` the token being accumulated. A double quote toggles quoted mode,
unquoted whitespace flushes the current token, and inside quotes a
backslash takes the next character literally (a trailing backslash at end
of input adds nothing, as in the source's `peek`). -/
def tokenizeAux : Bool → List Char → List Char → List String
  | _, cur, [] => if cur.isEmpty then [] else [⟨cur⟩]
  | inq, cur, c :: cs =>
    if c = '"' then tokenizeAux (!inq) cur cs
    else if (c = ' ' || c = '\t' || c = '\n') && !inq then
      if cur.isEmpty then tokenizeAux inq [] cs
      else (⟨cur⟩ : String) :: tokenizeAux inq [] cs
    else if c = '\\' && inq then
      match cs with
      | [] => if cur.isEmpty then [] else [⟨cur⟩]
      | d :: ds => tokenizeAux inq (cur ++ [d]) ds
    else tokenizeAux inq (cur ++ [c]) cs

/-- `NmapParser::tokenize`. -/
def tokenize (command : String) : List String :=
  tokenizeAux false [] command.data

/-- `get_next_value`: unconditionally take the next token, or report a
missing value when the input is exhausted. -/
def get_next_value (rest : List String) (flag : String) : Except ParseError String :=
  match rest with
  | [] => .error (.MissingValue flag)
  | v :: _ => .ok v

/-- `peek_next_value`: look at the next token without consuming it, and
only report it when it does not itself start with `-`. -/
def peek_next_value (rest : List String) : Option String :=
  match rest with
  | [] => none
  | v :: _ => if starts_with v "-" then none else some v

/-- `parse_number` at an unsigned type whose maximum is `bound`. -/
def parse_number (bound : Nat) (s : String) (flag : String) : Except ParseError Nat :=
  match rust_parse_uint bound s with
  | some n => .ok n
  | none => .error (.InvalidValue flag s)

/-- Modelled from the std library: `str::parse::<f32>` restricted to plain
decimal forms `[+-]?digits[.digits]` (exponents and the special values are
not modelled; no claim depends on float values). -/
def rust_parse_f32 (s : String) : Option Rat :=
  let (sign, body) :=
    if leads ['-'] s.data then ((-1 : Rat), s.data.drop 1)
    else if leads ['+'] s.data then ((1 : Rat), s.data.drop 1)
    else ((1 : Rat), s.data)
  match split_on_char '.' body with
  | [i] =>
    if i ≠ [] && i.all Char.isDigit then some (sign * digits_val i) else none
  | [i, f] =>
    if (i ≠ [] || f ≠ []) && i.all Char.isDigit && f.all Char.isDigit then
      some (sign * (digits_val i + (digits_val f : Rat) / (10 : Rat) ^ f.length))
    else none
  | _ => none

/-- `parse_float`. -/
def parse_float (s : String) (flag : String) : Except ParseError Rat :=
  match rust_parse_f32 s with
  | some q => .ok q
  | none => .error (.InvalidValue flag s)

/-- `parse_port_list`: split on commas and keep, in order, exactly the
entries that coerce to `u16`. -/
def parse_port_list (s : Option String) : List Nat :=
  match s with
  | some s => (split_comma s).filterMap fun p => rust_parse_uint 65535 p
  | none => []

/-- `parse_protocol_list`: split on commas and keep, in order, exactly the
entries that coerce to `u8`. -/
def parse_protocol_list (s : Option String) : List Nat :=
  match s with
  | some s => (split_comma s).filterMap fun p => rust_parse_uint 255 p
  | none => []

/-- A required-value arm taking the raw token: `get_next_value` then the
update, consuming one token. -/
def withValue (rest : List String) (flag : String) (upd : String → NmapScan) :
    Except ParseError (NmapScan × Nat) :=
  match get_next_value rest flag with
  | .error e => .error e
  | .ok v => .ok (upd v, 1)

/-- A required-value arm coercing the token to an unsigned integer. -/
def withNumber (bound : Nat) (rest : List String) (flag : String)
    (upd : Nat → NmapScan) : Except ParseError (NmapScan × Nat) :=
  match get_next_value rest flag with
  | .error e => .error e
  | .ok v =>
    match parse_number bound v flag with
    | .error e => .error e
    | .ok n => .ok (upd n, 1)

/-- The required-value arm of `--port-ratio`, coercing to `f32`. -/
def withFloat (rest : List String) (flag : String) (upd : Rat → NmapScan) :
    Except ParseError (NmapScan × Nat) :=
  match get_next_value rest flag with
  | .error e => .error e
  | .ok v =>
    match parse_float v flag with
    | .error e => .error e
    | .ok q => .ok (upd q, 1)

/-- The required-value arm of `-S`, coercing to an IP address. -/
def withIpAddr (rest : List String) (flag : String) (upd : IpAddr → NmapScan) :
    Except ParseError (NmapScan × Nat) :=
  match get_next_value rest flag with
  | .error e => .error e
  | .ok v =>
    match ipaddr_from_str v with
    | some ip => .ok (upd ip, 1)
    | none => .error (.InvalidValue flag v)

/-- `parse_flag`: the dispatch table. The result pairs the updated scan
with the number of value tokens consumed from `rest` (0 or 1). The source
writes the glued `-p<ports>` guard arm in the middle of the `match`; it
overlaps no literal arm, so it is placed after them here. The source's
`-sY`/`-sZ` arms name `ScanTechnique::SctpInit`/`SctpCookie`, which
`model.rs` declares as `Sctp(Init)`/`Sctp(Cookie)`. -/
def parse_flag (scan : NmapScan) (flag : String) (rest : List String) :
    Except ParseError (NmapScan × Nat) :=
  match flag with
  | "-iL" => withValue rest flag fun v =>
      { scan with target_specification.input_file := some v }
  | "-iR" => withNumber 4294967295 rest flag fun n =>
      { scan with target_specification.random_targets := some n }
  | "--exclude" => withValue rest flag fun v =>
      { scan with target_specification.exclude := split_comma v }
  | "--exclude-file" => withValue rest flag fun v =>
      { scan with target_specification.exclude_file := some v }
  | "-sL" => .ok ({ scan with host_discovery.list_scan := true }, 0)
  | "-sn" => .ok ({ scan with host_discovery.ping_scan := true }, 0)
  | "-Pn" => .ok ({ scan with host_discovery.skip_port_scan := true }, 0)
  | "-PS" => .ok
      ((match peek_next_value rest with
        | some v => { scan with host_discovery.syn_discovery := parse_port_list (some v) }
        | none => scan), 0)
  | "-PA" => .ok
      ((match peek_next_value rest with
        | some v => { scan with host_discovery.ack_discovery := parse_port_list (some v) }
        | none => scan), 0)
  | "-PU" => .ok
      ((match peek_next_value rest with
        | some v => { scan with host_discovery.udp_discovery := parse_port_list (some v) }
        | none => scan), 0)
  | "-PY" => .ok
      ((match peek_next_value rest with
        | some v => { scan with host_discovery.sctp_discovery := parse_port_list (some v) }
        | none => scan), 0)
  | "-PE" => .ok ({ scan with host_discovery.icmp_echo := true }, 0)
  | "-PP" => .ok ({ scan with host_discovery.icmp_timestamp := true }, 0)
  | "-PM" => .ok ({ scan with host_discovery.icmp_netmask := true }, 0)
  | "-PO" => .ok
      ((match peek_next_value rest with
        | some v =>
          { scan with host_discovery.ip_protocol_ping := parse_protocol_list (some v) }
        | none => scan), 0)
  | "--traceroute" => .ok ({ scan with host_discovery.traceroute := true }, 0)
  | "--dns-servers" => withValue rest flag fun v =>
      { scan with host_discovery.dns_servers := split_comma v }
  | "--system-dns" => .ok ({ scan with host_discovery.system_dns := true }, 0)
  | "-sS" => .ok ({ scan with scan_technique := .Syn }, 0)
  | "-sT" => .ok ({ scan with scan_technique := .Connect }, 0)
  | "-sA" => .ok ({ scan with scan_technique := .Ack }, 0)
  | "-sW" => .ok ({ scan with scan_technique := .Window }, 0)
  | "-sM" => .ok ({ scan with scan_technique := .Maimon }, 0)
  | "-sU" => .ok ({ scan with scan_technique := .Udp }, 0)
  | "-sN" => .ok ({ scan with scan_technique := .TcpNull }, 0)
  | "-sF" => .ok ({ scan with scan_technique := .Fin }, 0)
  | "-sX" => .ok ({ scan with scan_technique := .Xmas }, 0)
  | "-sY" => .ok ({ scan with scan_technique := .Sctp .Init }, 0)
  | "-sZ" => .ok ({ scan with scan_technique := .Sctp .Cookie }, 0)
  | "-sO" => .ok ({ scan with scan_technique := .IpProtocol }, 0)
  | "--scanflags" => withValue rest flag fun v =>
      { scan with scan_technique := .Scanflags v }
  | "-sI" => withValue rest flag fun v =>
      { scan with scan_technique := .Idle v }
  | "-b" => withValue rest flag fun v =>
      { scan with scan_technique := .Ftp v }
  | "-p" => withValue rest flag fun v =>
      { scan with ports.ports := some v }
  | "--exclude-ports" => withValue rest flag fun v =>
      { scan with ports.exclude_ports := some v }
  | "-F" => .ok ({ scan with ports.fast_mode := true }, 0)
  | "-r" => .ok ({ scan with ports.consecutive_ports := true }, 0)
  | "--top-ports" => withNumber 4294967295 rest flag fun n =>
      { scan with ports.top_ports := some n }
  | "--port-ratio" => withFloat rest flag fun q =>
      { scan with ports.portRatioVal := some q }
  | "-sV" => .ok ({ scan with service_detection.enabled := true }, 0)
  | "--version-intensity" => withNumber 255 rest flag fun n =>
      { scan with service_detection.intensity := some n }
  | "--version-light" => .ok ({ scan with service_detection.light := true }, 0)
  | "--version-all" => .ok ({ scan with service_detection.all := true }, 0)
  | "--version-trace" => .ok ({ scan with service_detection.trace := true }, 0)
  | "-sC" => .ok ({ scan with script_scan.default := true }, 0)
  | "--script" => withValue rest flag fun v =>
      { scan with script_scan.scripts := split_comma v }
  | "--script-args" => withValue rest flag fun v =>
      { scan with script_scan.script_args := some v }
  | "--script-args-file" => withValue rest flag fun v =>
      { scan with script_scan.script_args_file := some v }
  | "--script-trace" => .ok ({ scan with script_scan.script_trace := true }, 0)
  | "--script-updatedb" => .ok ({ scan with script_scan.script_updatedb := true }, 0)
  | "--script-help" => withValue rest flag fun v =>
      { scan with script_scan.script_help := some v }
  | "-O" => .ok ({ scan with os_detection.enabled := true }, 0)
  | "--osscan-limit" => .ok ({ scan with os_detection.limit := true }, 0)
  | "--osscan-guess" => .ok ({ scan with os_detection.guess := true }, 0)
  | "--max-os-tries" => withNumber 4294967295 rest flag fun n =>
      { scan with os_detection.max_retries := some n }
  | "-T0" => .ok ({ scan with timing.template := some .Paranoid }, 0)
  | "-T1" => .ok ({ scan with timing.template := some .Sneaky }, 0)
  | "-T2" => .ok ({ scan with timing.template := some .Polite }, 0)
  | "-T3" => .ok ({ scan with timing.template := some .Normal }, 0)
  | "-T4" => .ok ({ scan with timing.template := some .Aggressive }, 0)
  | "-T5" => .ok ({ scan with timing.template := some .Insane }, 0)
  | "--min-hostgroup" => withNumber 4294967295 rest flag fun n =>
      { scan with timing.min_hostgroup := some n }
  | "--max-hostgroup" => withNumber 4294967295 rest flag fun n =>
      { scan with timing.max_hostgroup := some n }
  | "--min-parallelism" => withNumber 4294967295 rest flag fun n =>
      { scan with timing.min_parallelism := some n }
  | "--max-parallelism" => withNumber 4294967295 rest flag fun n =>
      { scan with timing.max_parallelism := some n }
  | "--min-rtt-timeout" => withValue rest flag fun v =>
      { scan with timing.min_rtt_timeout := some v }
  | "--max-rtt-timeout" => withValue rest flag fun v =>
      { scan with timing.max_rtt_timeout := some v }
  | "--initial-rtt-timeout" => withValue rest flag fun v =>
      { scan with timing.initial_rtt_timeout := some v }
  | "--max-retries" => withNumber 4294967295 rest flag fun n =>
      { scan with timing.max_retries := some n }
  | "--host-timeout" => withValue rest flag fun v =>
      { scan with timing.host_timeout := some v }
  | "--script-timeout" => withValue rest flag fun v =>
      { scan with timing.script_timeout := some v }
  | "--scan-delay" => withValue rest flag fun v =>
      { scan with timing.scan_delay := some v }
  | "--max-scan-delay" => withValue rest flag fun v =>
      { scan with timing.max_scan_delay := some v }
  | "--min-rate" => withNumber 4294967295 rest flag fun n =>
      { scan with timing.min_rate := some n }
  | "--max-rate" => withNumber 4294967295 rest flag fun n =>
      { scan with timing.max_rate := some n }
  | "--defeat-rst-ratelimit" => .ok ({ scan with timing.defeat_rst_ratelimit := true }, 0)
  | "--defeat-icmp-ratelimit" => .ok ({ scan with timing.defeat_icmp_ratelimit := true }, 0)
  | "--nsock-engine" => withValue rest flag fun v =>
      { scan with timing.nsock_engine := some v }
  | "-f" => .ok ({ scan with evasion.fragment_packets := true }, 0)
  | "--mtu" => withNumber 4294967295 rest flag fun n =>
      { scan with evasion.mtu := some n }
  | "-D" => withValue rest flag fun v =>
      { scan with evasion.decoys := split_comma v }
  | "-S" => withIpAddr rest flag fun ip =>
      { scan with evasion.spoof_ip := some ip }
  | "-e" => withValue rest flag fun v =>
      { scan with evasion.interface := some v }
  | "-g" | "--source-port" => withNumber 65535 rest flag fun n =>
      { scan with evasion.source_port := some n }
  | "--data" => withValue rest flag fun v =>
      { scan with evasion.data := some v }
  | "--data-string" => withValue rest flag fun v =>
      { scan with evasion.data_string := some v }
  | "--data-length" => withNumber 4294967295 rest flag fun n =>
      { scan with evasion.data_length := some n }
  | "--ip-options" => withValue rest flag fun v =>
      { scan with evasion.ip_options := some v }
  | "--ttl" => withNumber 255 rest flag fun n =>
      { scan with evasion.ttl := some n }
  | "--randomize-hosts" => .ok ({ scan with evasion.randomize_hosts := true }, 0)
  | "--spoof-mac" => withValue rest flag fun v =>
      { scan with evasion.spoof_mac := some v }
  | "--badsum" => .ok ({ scan with evasion.badsum := true }, 0)
  | "--adler32" => .ok ({ scan with evasion.adler32 := true }, 0)
  | "-oN" => withValue rest flag fun v =>
      { scan with output.normal := some v }
  | "-oX" => withValue rest flag fun v =>
      { scan with output.xml := some v }
  | "-oS" => withValue rest flag fun v =>
      { scan with output.script_kiddie := some v }
  | "-oG" => withValue rest flag fun v =>
      { scan with output.grepable := some v }
  | "-oA" => withValue rest flag fun v =>
      { scan with output.all_formats := some v }
  | "-v" => .ok ({ scan with output.verbose := sat_add8 scan.output.verbose 1 }, 0)
  | "-vv" => .ok ({ scan with output.verbose := sat_add8 scan.output.verbose 2 }, 0)
  | "-d" => .ok ({ scan with output.debug := sat_add8 scan.output.debug 1 }, 0)
  | "-dd" => .ok ({ scan with output.debug := sat_add8 scan.output.debug 2 }, 0)
  | "--reason" => .ok ({ scan with output.reason := true }, 0)
  | "--stats-every" => withValue rest flag fun v =>
      { scan with output.stats_every := some v }
  | "--packet-trace" => .ok ({ scan with output.packet_trace := true }, 0)
  | "--open" => .ok ({ scan with output.open_only := true }, 0)
  | "--iflist" => .ok ({ scan with output.iflist := true }, 0)
  | "--append-output" => .ok ({ scan with output.append_output := true }, 0)
  | "--resume" => withValue rest flag fun v =>
      { scan with output.resume := some v }
  | "--stylesheet" => withValue rest flag fun v =>
      { scan with output.stylesheet := some v }
  | "--webxml" => .ok ({ scan with output.webxml := true }, 0)
  | "--no-stylesheet" => .ok ({ scan with output.no_stylesheet := true }, 0)
  | "-6" => .ok ({ scan with misc.ipv6 := true }, 0)
  | "-A" => .ok ({ scan with misc.aggressive := true }, 0)
  | "--datadir" => withValue rest flag fun v =>
      { scan with misc.datadir := some v }
  | "--send-eth" => .ok ({ scan with misc.send_eth := true }, 0)
  | "--send-ip" => .ok ({ scan with misc.send_ip := true }, 0)
  | "--privileged" => .ok ({ scan with misc.privileged := true }, 0)
  | "--unprivileged" => .ok ({ scan with misc.unprivileged := true }, 0)
  | "--release-memory" => .ok ({ scan with misc.release_memory := true }, 0)
  | "-V" | "--version" => .ok ({ scan with misc.version := true }, 0)
  | "-h" | "--help" => .ok ({ scan with misc.help := true }, 0)
  | "-R" => .ok ({ scan with misc.resolve_all := true }, 0)
  | "-n" => .ok ({ scan with misc.no_resolve := true }, 0)
  | "--unique" => .ok ({ scan with misc.unique := true }, 0)
  | "--log-errors" => .ok ({ scan with misc.log_errors := true }, 0)
  | _ =>
    if starts_with flag "-p" && char_len flag > 2 then
      .ok ({ scan with ports.ports := some (drop_chars flag 2) }, 0)
    else .error (.InvalidFlag flag)

/-- The token-processing loop of `NmapParser::parse`: `first` records
whether the token under inspection is the very first one (the `idx == 0`
check of the source); a non-flag token is appended to the positional
target list. -/
def parseLoop (scan : NmapScan) (first : Bool) : List String → Except ParseError NmapScan
  | [] => .ok scan
  | tok :: rest =>
    if tok = "nmap" && first then parseLoop scan false rest
    else if starts_with tok "-" then
      match parse_flag scan tok rest with
      | .error e => .error e
      | .ok (scan', k) =>
        if k = 0 then parseLoop scan' false rest
        else
          match rest with
          | [] => .ok scan'
          | _ :: rest' => parseLoop scan' false rest'
    else
      parseLoop
        { scan with target_specification.targets :=
            scan.target_specification.targets ++ [tok] }
        false rest

/-- `NmapParser::parse`. -/
def parse (command : String) : Except ParseError NmapScan :=
  parseLoop NmapScan.new true (tokenize command)

/-- Characters that the tokenizer treats specially (outside quotes):
whitespace, the double quote, and the backslash. -/
def is_special (c : Char) : Bool :=
  c = ' ' || c = '\t' || c = '\n' || c = '"' || c = '\\'

/-- A plain word: non-empty and free of tokenizer-special characters. -/
def plain_word (w : String) : Prop :=
  w.data ≠ [] ∧ ∀ c ∈ w.data, is_special c = false

instance (w : String) : Decidable (plain_word w) := by
  unfold plain_word; infer_instance

/-- Words joined by single spaces (the shape of a command line made of
plain tokens). -/
def joinWords : List String → String
  | [] => ""
  | [w] => w
  | w :: ws => w ++ " " ++ joinWords ws

/-- Every exact flag spelling in the dispatch table of `parse_flag`
(the glued `-p<ports>` form is covered separately by `knownFlag`). -/
def knownFlags : List String :=
  ["-iL", "-iR", "--exclude", "--exclude-file", "-sL", "-sn", "-Pn", "-PS",
   "-PA", "-PU", "-PY", "-PE", "-PP", "-PM", "-PO", "--traceroute",
   "--dns-servers", "--system-dns", "-sS", "-sT", "-sA", "-sW", "-sM", "-sU",
   "-sN", "-sF", "-sX", "-sY", "-sZ", "-sO", "--scanflags", "-sI", "-b", "-p",
   "--exclude-ports", "-F", "-r", "--top-ports", "--port-ratio", "-sV",
   "--version-intensity", "--version-light", "--version-all",
   "--version-trace", "-sC", "--script", "--script-args", "--script-args-file",
   "--script-trace", "--script-updatedb", "--script-help", "-O",
   "--osscan-limit", "--osscan-guess", "--max-os-tries", "-T0", "-T1", "-T2",
   "-T3", "-T4", "-T5", "--min-hostgroup", "--max-hostgroup",
   "--min-parallelism", "--max-parallelism", "--min-rtt-timeout",
   "--max-rtt-timeout", "--initial-rtt-timeout", "--max-retries",
   "--host-timeout", "--script-timeout", "--scan-delay", "--max-scan-delay",
   "--min-rate", "--max-rate", "--defeat-rst-ratelimit",
   "--defeat-icmp-ratelimit", "--nsock-engine", "-f", "--mtu", "-D", "-S",
   "-e", "-g", "--source-port", "--data", "--data-string", "--data-length",
   "--ip-options", "--ttl", "--randomize-hosts", "--spoof-mac", "--badsum",
   "--adler32", "-oN", "-oX", "-oS", "-oG", "-oA", "-v", "-vv", "-d", "-dd",
   "--reason", "--stats-every", "--packet-trace", "--open", "--iflist",
   "--append-output", "--resume", "--stylesheet", "--webxml",
   "--no-stylesheet", "-6", "-A", "--datadir", "--send-eth", "--send-ip",
   "--privileged", "--unprivileged", "--release-memory", "-V", "--version",
   "-h", "--help", "-R", "-n", "--unique", "--log-errors"]

/-- A token the dispatch table recognises: an exact spelling, or the glued
`-p<ports>` form. -/
def knownFlag (tok : String) : Bool :=
  knownFlags.contains tok || (starts_with tok "-p" && char_len tok > 2)

/-- Every flag of the dispatch table whose arm calls `get_next_value`:
these consume the immediately following token unconditionally. -/
def required_value_flags : List String :=
  ["-iL", "-iR", "--exclude", "--exclude-file", "--dns-servers",
   "--scanflags", "-sI", "-b", "-p", "--exclude-ports", "--top-ports",
   "--port-ratio", "--version-intensity", "--script", "--script-args",
   "--script-args-file", "--script-help", "--max-os-tries",
   "--min-hostgroup", "--max-hostgroup", "--min-parallelism",
   "--max-parallelism", "--min-rtt-timeout", "--max-rtt-timeout",
   "--initial-rtt-timeout", "--max-retries", "--host-timeout",
   "--script-timeout", "--scan-delay", "--max-scan-delay", "--min-rate",
   "--max-rate", "--nsock-engine", "--mtu", "-D", "-S", "-e", "-g",
   "--source-port", "--data", "--data-string", "--data-length",
   "--ip-options", "--ttl", "--spoof-mac", "-oN", "-oX", "-oS", "-oG",
   "-oA", "--stats-every", "--resume", "--stylesheet", "--datadir"]

end NmapParser

/-! ## The field registry of src/scan/flags.rs -/

inductive NmapFlag where
  | Targets
  | InputFile
  | Exclude
  | ExcludeFile
  | RandomTargets
  | ListScan
  | PingScan
  | SkipPortScan
  | Traceroute
  | SynDiscovery
  | AckDiscovery
  | UdpDiscovery
  | SctpDiscovery
  | IcmpEcho
  | IcmpTimestamp
  | IcmpNetmask
  | IpProtocolPing
  | SystemDns
  | NoResolve
  | AlwaysResolve
  | DnsServers
  | TimingTemplate
deriving DecidableEq

namespace NmapFlag

/-- `NmapFlag::iter().collect::<Vec<_>>()`: the declared enumeration order
of the `EnumIter` derive, fixed once. -/
def all_flags : List NmapFlag :=
  [.Targets, .InputFile, .Exclude, .ExcludeFile, .RandomTargets, .ListScan,
   .PingScan, .SkipPortScan, .Traceroute, .SynDiscovery, .AckDiscovery,
   .UdpDiscovery, .SctpDiscovery, .IcmpEcho, .IcmpTimestamp, .IcmpNetmask,
   .IpProtocolPing, .SystemDns, .NoResolve, .AlwaysResolve, .DnsServers,
   .TimingTemplate]

/-- `NmapFlag::next`: cyclic successor in enumeration order. The source
indexes `all_flags[next_index]` with an index that is always in range;
`getD` with an arbitrary fallback models that access. -/
def next (f : NmapFlag) : NmapFlag :=
  all_flags.getD ((all_flags.indexOf f + 1) % all_flags.length) f

/-- `NmapFlag::prev`: cyclic predecessor in enumeration order. -/
def prev (f : NmapFlag) : NmapFlag :=
  all_flags.getD ((all_flags.indexOf f + all_flags.length - 1) % all_flags.length) f

end NmapFlag

/-! ## String groundwork -/

theorem str_empty_append (s : String) : "" ++ s = s := by
  obtain ⟨d⟩ := s
  show String.mk ([] ++ d) = String.mk d
  rw [List.nil_append]

theorem str_append_empty (s : String) : s ++ "" = s := by
  obtain ⟨d⟩ := s
  show String.mk (d ++ []) = String.mk d
  rw [List.append_nil]

/-! ## Builder append structure: every section builder only appends to the
command accumulated so far. -/

namespace NmapCommandBuilder

theorem build_host_discovery_append (cmd : String) (hd : HostDiscovery) :
    build_host_discovery cmd hd = cmd ++ build_host_discovery "" hd := by
  simp only [build_host_discovery, str_empty_append, String.append_assoc]

theorem build_scan_list_append (cmd : String) (ts : List ScanTechnique) :
    cmd ++ build_scan_list ts = cmd ++ build_scan_list ts := rfl

theorem build_scan_technique_append (cmd : String) (st : ScanTechnique) :
    build_scan_technique cmd st = cmd ++ build_scan_technique "" st := by
  cases st <;>
    first
      | (rename_i t; cases t <;>
          simp only [build_scan_technique, str_empty_append, String.append_assoc])
      | simp only [build_scan_technique, str_empty_append, String.append_assoc]

theorem build_port_specification_append (cmd : String) (ps : PortSpecification) :
    build_port_specification cmd ps = cmd ++ build_port_specification "" ps := by
  simp only [build_port_specification, str_empty_append, String.append_assoc]

theorem build_service_detection_append (cmd : String) (sd : ServiceDetection) :
    build_service_detection cmd sd = cmd ++ build_service_detection "" sd := by
  simp only [build_service_detection, str_empty_append, String.append_assoc]

theorem build_script_scan_append (cmd : String) (ss : ScriptScan) :
    build_script_scan cmd ss = cmd ++ build_script_scan "" ss := by
  simp only [build_script_scan, str_empty_append, String.append_assoc]

theorem build_os_detection_append (cmd : String) (od : OsDetection) :
    build_os_detection cmd od = cmd ++ build_os_detection "" od := by
  simp only [build_os_detection, str_empty_append, String.append_assoc]

theorem build_timing_performance_append (cmd : String) (tp : TimingPerformance) :
    build_timing_performance cmd tp = cmd ++ build_timing_performance "" tp := by
  simp only [build_timing_performance, str_empty_append, String.append_assoc]

theorem build_evasion_spoofing_append (cmd : String) (es : EvasionSpoofing) :
    build_evasion_spoofing cmd es = cmd ++ build_evasion_spoofing "" es := by
  simp only [build_evasion_spoofing, str_empty_append, String.append_assoc]

theorem build_output_append (cmd : String) (out : OutputOptions) :
    build_output cmd out = cmd ++ build_output "" out := by
  simp only [build_output, str_empty_append, String.append_assoc]

theorem build_misc_append (cmd : String) (misc : MiscOptions) :
    build_misc cmd misc = cmd ++ build_misc "" misc := by
  simp only [build_misc, str_empty_append, String.append_assoc]

theorem build_target_specification_append (cmd : String) (scan : NmapScan) :
    build_target_specification cmd scan = cmd ++ build_target_specification "" scan := by
  simp only [build_target_specification, str_empty_append, String.append_assoc]

/-- `build` is exactly the concatenation of the per-section renderings, in
the fixed source order, with the target specification last. -/
theorem build_sections (scan : NmapScan) :
    build scan =
      "nmap"
        ++ build_host_discovery "" scan.host_discovery
        ++ build_scan_technique "" scan.scan_technique
        ++ build_port_specification "" scan.ports
        ++ build_service_detection "" scan.service_detection
        ++ build_script_scan "" scan.script_scan
        ++ build_os_detection "" scan.os_detection
        ++ build_timing_performance "" scan.timing
        ++ build_evasion_spoofing "" scan.evasion
        ++ build_output "" scan.output
        ++ build_misc "" scan.misc
        ++ build_target_specification "" scan := by
  show build_target_specification _ scan = _
  rw [build_target_specification_append, build_misc_append, build_output_append,
    build_evasion_spoofing_append, build_timing_performance_append,
    build_os_detection_append, build_script_scan_append,
    build_service_detection_append, build_port_specification_append,
    build_scan_technique_append, build_host_discovery_append]

end NmapCommandBuilder

/-! ## Tokenizer structure -/

namespace NmapParser

theorem joinWords_cons (w : String) (ws : List String) (h : ws ≠ []) :
    joinWords (w :: ws) = w ++ " " ++ joinWords ws := by
  cases ws with
  | nil => exact absurd rfl h
  | cons w' ws' => rfl

theorem tokenizeAux_step_plain (c : Char) (hns : is_special c = false)
    (cur cs : List Char) :
    tokenizeAux false cur (c :: cs) = tokenizeAux false (cur ++ [c]) cs := by
  have h1 : ¬ (c = ' ') := by intro h; rw [h] at hns; simp [is_special] at hns
  have h2 : ¬ (c = '\t') := by intro h; rw [h] at hns; simp [is_special] at hns
  have h3 : ¬ (c = '\n') := by intro h; rw [h] at hns; simp [is_special] at hns
  have h4 : ¬ (c = '"') := by intro h; rw [h] at hns; simp [is_special] at hns
  have h5 : ¬ (c = '\\') := by intro h; rw [h] at hns; simp [is_special] at hns
  rw [tokenizeAux.eq_def]
  simp [h1, h2, h3, h4, h5]

theorem tokenizeAux_plain (w : List Char) (hw : ∀ c ∈ w, is_special c = false) :
    ∀ cur cs, tokenizeAux false cur (w ++ cs) = tokenizeAux false (cur ++ w) cs := by
  induction w with
  | nil => intro cur cs; simp
  | cons c w ih =>
    intro cur cs
    calc tokenizeAux false cur ((c :: w) ++ cs)
        = tokenizeAux false (cur ++ [c]) (w ++ cs) :=
          tokenizeAux_step_plain c (hw c (by simp)) cur (w ++ cs)
      _ = tokenizeAux false ((cur ++ [c]) ++ w) cs :=
          ih (fun x hx => hw x (by simp [hx])) _ _
      _ = tokenizeAux false (cur ++ (c :: w)) cs := by
          rw [List.append_assoc]; rfl

theorem tokenizeAux_flush_space (cur : List Char) (cs : List Char) (h : cur ≠ []) :
    tokenizeAux false cur (' ' :: cs) =
      (⟨cur⟩ : String) :: tokenizeAux false [] cs := by
  rw [tokenizeAux.eq_def]
  simp [List.isEmpty_iff, h]

theorem tokenizeAux_finish (cur : List Char) (h : cur ≠ []) :
    tokenizeAux false cur [] = [(⟨cur⟩ : String)] := by
  rw [tokenizeAux.eq_def]
  simp [List.isEmpty_iff, h]

/-- On a command line made of plain words separated by single spaces, the
tokenizer returns exactly those words. -/
theorem tokenize_words (ws : List String) (h : ∀ w ∈ ws, plain_word w) :
    tokenize (joinWords ws) = ws := by
  induction ws with
  | nil => rfl
  | cons w ws ih =>
    obtain ⟨hne, hplain⟩ := h w (by simp)
    cases ws with
    | nil =>
      show tokenizeAux false [] w.data = [w]
      have hp := tokenizeAux_plain w.data hplain [] []
      rw [List.append_nil, List.nil_append] at hp
      rw [hp, tokenizeAux_finish w.data hne]
    | cons w' ws' =>
      rw [joinWords_cons w (w' :: ws') (by simp)]
      show tokenizeAux false [] (w ++ " " ++ joinWords (w' :: ws')).data = _
      rw [String.data_append, String.data_append]
      rw [show (" " : String).data = [' '] from rfl, List.append_assoc]
      rw [show ([' '] ++ (joinWords (w' :: ws')).data : List Char) =
            ' ' :: (joinWords (w' :: ws')).data from rfl]
      rw [tokenizeAux_plain w.data hplain [] _, List.nil_append]
      rw [tokenizeAux_flush_space w.data _ hne]
      have hrest : tokenizeAux false [] (joinWords (w' :: ws')).data = w' :: ws' :=
        ih fun x hx => h x (by simp [hx])
      rw [hrest]

end NmapParser

/-! ## Parse-loop step lemmas -/

namespace NmapParser

theorem parseLoop_skip_nmap (scan : NmapScan) (L : List String) :
    parseLoop scan true ("nmap" :: L) = parseLoop scan false L := by
  simp only [parseLoop]
  rfl

theorem parseLoop_target (scan : NmapScan) (tok : String) (L : List String)
    (h : starts_with tok "-" = false) :
    parseLoop scan false (tok :: L) =
      parseLoop
        { scan with target_specification.targets :=
            scan.target_specification.targets ++ [tok] }
        false L := by
  simp only [parseLoop, Bool.and_false, Bool.false_eq_true, if_false, h]

theorem parseLoop_v (scan : NmapScan) (L : List String) :
    parseLoop scan false ("-v" :: L) =
      parseLoop { scan with output.verbose := sat_add8 scan.output.verbose 1 } false L := by
  simp only [parseLoop]
  rfl

theorem parseLoop_d (scan : NmapScan) (L : List String) :
    parseLoop scan false ("-d" :: L) =
      parseLoop { scan with output.debug := sat_add8 scan.output.debug 1 } false L := by
  simp only [parseLoop]
  rfl

theorem parseLoop_v_rep (m : Nat) :
    ∀ scan : NmapScan, scan.output.verbose + m ≤ 255 →
      parseLoop scan false (List.replicate m "-v") =
        .ok { scan with output.verbose := scan.output.verbose + m } := by
  induction m with
  | zero => intro scan h; rfl
  | succ m ih =>
    intro scan h
    rw [List.replicate_succ, parseLoop_v]
    have h2 : sat_add8 scan.output.verbose 1 = scan.output.verbose + 1 := by
      simp only [sat_add8]; omega
    rw [h2]
    have h3 := ih { scan with output.verbose := scan.output.verbose + 1 } (by simp; omega)
    simp only at h3
    rw [h3]
    have h4 : scan.output.verbose + 1 + m = scan.output.verbose + (m + 1) := by omega
    rw [h4]

theorem parseLoop_d_rep (m : Nat) :
    ∀ scan : NmapScan, scan.output.debug + m ≤ 255 →
      parseLoop scan false (List.replicate m "-d") =
        .ok { scan with output.debug := scan.output.debug + m } := by
  induction m with
  | zero => intro scan h; rfl
  | succ m ih =>
    intro scan h
    rw [List.replicate_succ, parseLoop_d]
    have h2 : sat_add8 scan.output.debug 1 = scan.output.debug + 1 := by
      simp only [sat_add8]; omega
    rw [h2]
    have h3 := ih { scan with output.debug := scan.output.debug + 1 } (by simp; omega)
    simp only at h3
    rw [h3]
    have h4 : scan.output.debug + 1 + m = scan.output.debug + (m + 1) := by omega
    rw [h4]

end NmapParser

/-! ## Builder output fragments for the stacked-count options -/

namespace NmapCommandBuilder

theorem build_output_only (out : OutputOptions) :
    build { NmapScan.new with output := out } =
      "nmap" ++ " -sS" ++ build_output "" out := by
  rw [build_sections]
  rw [show build_host_discovery ""
        ({ NmapScan.new with output := out } : NmapScan).host_discovery = "" from rfl]
  rw [show build_scan_technique ""
        ({ NmapScan.new with output := out } : NmapScan).scan_technique = " -sS" from rfl]
  rw [show build_port_specification ""
        ({ NmapScan.new with output := out } : NmapScan).ports = "" from rfl]
  rw [show build_service_detection ""
        ({ NmapScan.new with output := out } : NmapScan).service_detection = "" from rfl]
  rw [show build_script_scan ""
        ({ NmapScan.new with output := out } : NmapScan).script_scan = "" from rfl]
  rw [show build_os_detection ""
        ({ NmapScan.new with output := out } : NmapScan).os_detection = "" from rfl]
  rw [show build_timing_performance ""
        ({ NmapScan.new with output := out } : NmapScan).timing = "" from rfl]
  rw [show build_evasion_spoofing ""
        ({ NmapScan.new with output := out } : NmapScan).evasion = "" from rfl]
  rw [show build_misc ""
        ({ NmapScan.new with output := out } : NmapScan).misc = "" from rfl]
  rw [show build_target_specification ""
        ({ NmapScan.new with output := out } : NmapScan) = "" from rfl]
  rw [show ({ NmapScan.new with output := out } : NmapScan).output = out from rfl]
  simp [str_append_empty, str_empty_append, String.append_assoc]

theorem build_output_verbose_gt2 (m : Nat) :
    build_output "" { verbose := m + 3 } = repeat_frag (m + 3) " -v" := by
  simp [build_output, str_append_empty, str_empty_append]

theorem build_output_debug_gt2 (m : Nat) :
    build_output "" { debug := m + 3 } = repeat_frag (m + 3) " -d" := by
  simp [build_output, str_append_empty, str_empty_append]

end NmapCommandBuilder

/-! ## Joined plain words and repeated fragments -/

namespace NmapParser

theorem plain_rep (t : String) (ht : plain_word t) (k : Nat) :
    ∀ w ∈ List.replicate k t, plain_word w := by
  intro w hw
  rw [List.eq_of_mem_replicate hw]
  exact ht

theorem joinWords_rep (t frag : String) (hfrag : (" " : String) ++ t = frag) (k : Nat) :
    ∀ w : String, joinWords (w :: List.replicate k t) =
      w ++ NmapCommandBuilder.repeat_frag k frag := by
  induction k with
  | zero =>
    intro w
    show w = w ++ ""
    rw [str_append_empty]
  | succ k ih =>
    intro w
    rw [List.replicate_succ, joinWords_cons w _ (by simp), ih t]
    rw [String.append_assoc, ← String.append_assoc " " t _, hfrag]
    show w ++ (frag ++ _) = w ++ NmapCommandBuilder.repeat_frag (k + 1) frag
    rfl

end NmapParser

namespace NmapParser

open NmapCommandBuilder

theorem parseLoop_sS (scan : NmapScan) (L : List String) :
    parseLoop scan false ("-sS" :: L) =
      parseLoop { scan with scan_technique := .Syn } false L := by
  simp only [parseLoop]
  rfl

theorem plain_cons (w : String) (hw : plain_word w) (ws : List String)
    (h : ∀ x ∈ ws, plain_word x) : ∀ x ∈ w :: ws, plain_word x := by
  intro x hx
  rcases List.mem_cons.mp hx with rfl | hx
  · exact hw
  · exact h x hx

theorem build_verbose_frag (m : Nat) :
    build { NmapScan.new with output.verbose := m + 3 } =
      "nmap" ++ " -sS" ++ repeat_frag (m + 3) " -v" := by
  rw [show ({ NmapScan.new with output.verbose := m + 3 } : NmapScan) =
        { NmapScan.new with output := { verbose := m + 3 } } from rfl]
  rw [build_output_only, build_output_verbose_gt2]

theorem joinWords_nmap_sS_rep_v (k : Nat) :
    joinWords ("nmap" :: "-sS" :: List.replicate k "-v") =
      "nmap" ++ " -sS" ++ repeat_frag k " -v" := by
  rw [joinWords_cons _ _ (by simp), joinWords_rep "-v" " -v" rfl k "-sS"]
  rfl

theorem tokenize_nmap_sS_rep_v (k : Nat) :
    tokenize ("nmap" ++ " -sS" ++ repeat_frag k " -v") =
      "nmap" :: "-sS" :: List.replicate k "-v" := by
  rw [← joinWords_nmap_sS_rep_v k]
  exact tokenize_words _
    (plain_cons _ (by decide) _ (plain_cons _ (by decide) _ (plain_rep "-v" (by decide) k)))

set_option maxRecDepth 8000 in
theorem parse_build_verbose (n : Nat) (h : n ≤ 255) :
    parse (build { NmapScan.new with output.verbose := n }) =
      .ok { NmapScan.new with output.verbose := n } := by
  rcases n with _ | _ | _ | m
  · rfl
  · rfl
  · rfl
  · show parseLoop NmapScan.new true (tokenize (build _)) = _
    rw [build_verbose_frag, tokenize_nmap_sS_rep_v, parseLoop_skip_nmap, parseLoop_sS]
    rw [parseLoop_v_rep (m + 3) _ (by simp [NmapScan.new]; omega)]
    rw [show ({ NmapScan.new with scan_technique := ScanTechnique.Syn } :
          NmapScan).output.verbose + (m + 3) = m + 3 by simp [NmapScan.new]]
    rfl

theorem parse_replicate_v (n : Nat) (h : n ≤ 255) :
    parse (joinWords ("nmap" :: List.replicate n "-v")) =
      .ok { NmapScan.new with output.verbose := n } := by
  show parseLoop NmapScan.new true (tokenize _) = _
  rw [tokenize_words _ (plain_cons _ (by decide) _ (plain_rep "-v" (by decide) n))]
  rw [parseLoop_skip_nmap]
  rw [parseLoop_v_rep n _ (by simp [NmapScan.new]; omega)]
  rw [show (NmapScan.new : NmapScan).output.verbose + n = n by simp [NmapScan.new]]

end NmapParser

namespace NmapParser

open NmapCommandBuilder

theorem build_debug_frag (m : Nat) :
    build { NmapScan.new with output.debug := m + 3 } =
      "nmap" ++ " -sS" ++ repeat_frag (m + 3) " -d" := by
  rw [show ({ NmapScan.new with output.debug := m + 3 } : NmapScan) =
        { NmapScan.new with output := { debug := m + 3 } } from rfl]
  rw [build_output_only, build_output_debug_gt2]

theorem joinWords_nmap_sS_rep_d (k : Nat) :
    joinWords ("nmap" :: "-sS" :: List.replicate k "-d") =
      "nmap" ++ " -sS" ++ repeat_frag k " -d" := by
  rw [joinWords_cons _ _ (by simp), joinWords_rep "-d" " -d" rfl k "-sS"]
  rfl

theorem tokenize_nmap_sS_rep_d (k : Nat) :
    tokenize ("nmap" ++ " -sS" ++ repeat_frag k " -d") =
      "nmap" :: "-sS" :: List.replicate k "-d" := by
  rw [← joinWords_nmap_sS_rep_d k]
  exact tokenize_words _
    (plain_cons _ (by decide) _ (plain_cons _ (by decide) _ (plain_rep "-d" (by decide) k)))

set_option maxRecDepth 8000 in
theorem parse_build_debug (n : Nat) (h : n ≤ 255) :
    parse (build { NmapScan.new with output.debug := n }) =
      .ok { NmapScan.new with output.debug := n } := by
  rcases n with _ | _ | _ | m
  · rfl
  · rfl
  · rfl
  · show parseLoop NmapScan.new true (tokenize (build _)) = _
    rw [build_debug_frag, tokenize_nmap_sS_rep_d, parseLoop_skip_nmap, parseLoop_sS]
    rw [parseLoop_d_rep (m + 3) _ (by simp [NmapScan.new]; omega)]
    rw [show ({ NmapScan.new with scan_technique := ScanTechnique.Syn } :
          NmapScan).output.debug + (m + 3) = m + 3 by simp [NmapScan.new]]
    rfl

theorem parse_replicate_d (n : Nat) (h : n ≤ 255) :
    parse (joinWords ("nmap" :: List.replicate n "-d")) =
      .ok { NmapScan.new with output.debug := n } := by
  show parseLoop NmapScan.new true (tokenize _) = _
  rw [tokenize_words _ (plain_cons _ (by decide) _ (plain_rep "-d" (by decide) n))]
  rw [parseLoop_skip_nmap]
  rw [parseLoop_d_rep n _ (by simp [NmapScan.new]; omega)]
  rw [show (NmapScan.new : NmapScan).output.debug + n = n by simp [NmapScan.new]]

end NmapParser

namespace NmapParser

theorem parseLoop_cons (scan : NmapScan) (first : Bool) (tok : String)
    (rest : List String) :
    parseLoop scan first (tok :: rest) =
      if tok = "nmap" && first then parseLoop scan false rest
      else if starts_with tok "-" then
        match parse_flag scan tok rest with
        | .error e => .error e
        | .ok (scan', k) =>
          if k = 0 then parseLoop scan' false rest
          else
            match rest with
            | [] => .ok scan'
            | _ :: rest' => parseLoop scan' false rest'
      else
        parseLoop
          { scan with target_specification.targets :=
              scan.target_specification.targets ++ [tok] }
          false rest := by
  conv_lhs => rw [parseLoop]

theorem parseLoop_flag0 (scan scan' : NmapScan) (tok : String) (rest : List String)
    (hdash : starts_with tok "-" = true)
    (hpf : parse_flag scan tok rest = .ok (scan', 0)) :
    parseLoop scan false (tok :: rest) = parseLoop scan' false rest := by
  rw [parseLoop_cons]
  simp [hdash, hpf]

theorem parseLoop_flag1 (scan scan' : NmapScan) (tok v : String) (rest : List String)
    (hdash : starts_with tok "-" = true)
    (hpf : parse_flag scan tok (v :: rest) = .ok (scan', 1)) :
    parseLoop scan false (tok :: v :: rest) = parseLoop scan' false rest := by
  rw [parseLoop_cons]
  simp [hdash, hpf]

theorem parseLoop_flag_err (scan : NmapScan) (e : ParseError) (tok : String)
    (rest : List String)
    (hdash : starts_with tok "-" = true)
    (hpf : parse_flag scan tok rest = .error e) :
    parseLoop scan false (tok :: rest) = .error e := by
  rw [parseLoop_cons]
  simp [hdash, hpf]

end NmapParser

/-! ## The optional-value discovery flags -/

namespace NmapParser

theorem plain_singleton (v : String) (hp : plain_word v) : ∀ x ∈ [v], plain_word x := by
  intro x hx
  rw [List.mem_singleton.mp hx]
  exact hp

theorem parse_flag_PS (scan : NmapScan) (v : String) (rest : List String)
    (hv : starts_with v "-" = false) :
    parse_flag scan "-PS" (v :: rest) =
      .ok ({ scan with host_discovery.syn_discovery := parse_port_list (some v) }, 0) := by
  have hpeek : peek_next_value (v :: rest) = some v := by simp [peek_next_value, hv]
  calc parse_flag scan "-PS" (v :: rest)
      = .ok ((match peek_next_value (v :: rest) with
              | some w => { scan with host_discovery.syn_discovery := parse_port_list (some w) }
              | none => scan), 0) := rfl
    _ = _ := by rw [hpeek]

theorem parse_PS_value (v : String) (hp : plain_word v)
    (hv : starts_with v "-" = false) :
    parse ("nmap -PS " ++ v) =
      .ok { NmapScan.new with
              host_discovery.syn_discovery := parse_port_list (some v),
              target_specification.targets := [v] } := by
  show parseLoop NmapScan.new true (tokenize ("nmap -PS " ++ v)) = _
  rw [show ("nmap -PS " ++ v : String) = joinWords ["nmap", "-PS", v] from rfl]
  rw [tokenize_words _
    (plain_cons _ (by decide) _ (plain_cons _ (by decide) _ (plain_singleton v hp)))]
  rw [parseLoop_skip_nmap]
  rw [parseLoop_flag0 _ _ "-PS" [v] (by decide) (parse_flag_PS _ v [] hv)]
  rw [parseLoop_target _ v _ hv]
  rfl

theorem parse_flag_PA (scan : NmapScan) (v : String) (rest : List String)
    (hv : starts_with v "-" = false) :
    parse_flag scan "-PA" (v :: rest) =
      .ok ({ scan with host_discovery.ack_discovery := parse_port_list (some v) }, 0) := by
  have hpeek : peek_next_value (v :: rest) = some v := by simp [peek_next_value, hv]
  calc parse_flag scan "-PA" (v :: rest)
      = .ok ((match peek_next_value (v :: rest) with
              | some w => { scan with host_discovery.ack_discovery := parse_port_list (some w) }
              | none => scan), 0) := rfl
    _ = _ := by rw [hpeek]

theorem parse_PA_value (v : String) (hp : plain_word v)
    (hv : starts_with v "-" = false) :
    parse ("nmap -PA " ++ v) =
      .ok { NmapScan.new with
              host_discovery.ack_discovery := parse_port_list (some v),
              target_specification.targets := [v] } := by
  show parseLoop NmapScan.new true (tokenize ("nmap -PA " ++ v)) = _
  rw [show ("nmap -PA " ++ v : String) = joinWords ["nmap", "-PA", v] from rfl]
  rw [tokenize_words _
    (plain_cons _ (by decide) _ (plain_cons _ (by decide) _ (plain_singleton v hp)))]
  rw [parseLoop_skip_nmap]
  rw [parseLoop_flag0 _ _ "-PA" [v] (by decide) (parse_flag_PA _ v [] hv)]
  rw [parseLoop_target _ v _ hv]
  rfl

theorem parse_flag_PU (scan : NmapScan) (v : String) (rest : List String)
    (hv : starts_with v "-" = false) :
    parse_flag scan "-PU" (v :: rest) =
      .ok ({ scan with host_discovery.udp_discovery := parse_port_list (some v) }, 0) := by
  have hpeek : peek_next_value (v :: rest) = some v := by simp [peek_next_value, hv]
  calc parse_flag scan "-PU" (v :: rest)
      = .ok ((match peek_next_value (v :: rest) with
              | some w => { scan with host_discovery.udp_discovery := parse_port_list (some w) }
              | none => scan), 0) := rfl
    _ = _ := by rw [hpeek]

theorem parse_PU_value (v : String) (hp : plain_word v)
    (hv : starts_with v "-" = false) :
    parse ("nmap -PU " ++ v) =
      .ok { NmapScan.new with
              host_discovery.udp_discovery := parse_port_list (some v),
              target_specification.targets := [v] } := by
  show parseLoop NmapScan.new true (tokenize ("nmap -PU " ++ v)) = _
  rw [show ("nmap -PU " ++ v : String) = joinWords ["nmap", "-PU", v] from rfl]
  rw [tokenize_words _
    (plain_cons _ (by decide) _ (plain_cons _ (by decide) _ (plain_singleton v hp)))]
  rw [parseLoop_skip_nmap]
  rw [parseLoop_flag0 _ _ "-PU" [v] (by decide) (parse_flag_PU _ v [] hv)]
  rw [parseLoop_target _ v _ hv]
  rfl

theorem parse_flag_PY (scan : NmapScan) (v : String) (rest : List String)
    (hv : starts_with v "-" = false) :
    parse_flag scan "-PY" (v :: rest) =
      .ok ({ scan with host_discovery.sctp_discovery := parse_port_list (some v) }, 0) := by
  have hpeek : peek_next_value (v :: rest) = some v := by simp [peek_next_value, hv]
  calc parse_flag scan "-PY" (v :: rest)
      = .ok ((match peek_next_value (v :: rest) with
              | some w => { scan with host_discovery.sctp_discovery := parse_port_list (some w) }
              | none => scan), 0) := rfl
    _ = _ := by rw [hpeek]

theorem parse_PY_value (v : String) (hp : plain_word v)
    (hv : starts_with v "-" = false) :
    parse ("nmap -PY " ++ v) =
      .ok { NmapScan.new with
              host_discovery.sctp_discovery := parse_port_list (some v),
              target_specification.targets := [v] } := by
  show parseLoop NmapScan.new true (tokenize ("nmap -PY " ++ v)) = _
  rw [show ("nmap -PY " ++ v : String) = joinWords ["nmap", "-PY", v] from rfl]
  rw [tokenize_words _
    (plain_cons _ (by decide) _ (plain_cons _ (by decide) _ (plain_singleton v hp)))]
  rw [parseLoop_skip_nmap]
  rw [parseLoop_flag0 _ _ "-PY" [v] (by decide) (parse_flag_PY _ v [] hv)]
  rw [parseLoop_target _ v _ hv]
  rfl

theorem parse_flag_PO (scan : NmapScan) (v : String) (rest : List String)
    (hv : starts_with v "-" = false) :
    parse_flag scan "-PO" (v :: rest) =
      .ok ({ scan with host_discovery.ip_protocol_ping := parse_protocol_list (some v) }, 0) := by
  have hpeek : peek_next_value (v :: rest) = some v := by simp [peek_next_value, hv]
  calc parse_flag scan "-PO" (v :: rest)
      = .ok ((match peek_next_value (v :: rest) with
              | some w => { scan with host_discovery.ip_protocol_ping := parse_protocol_list (some w) }
              | none => scan), 0) := rfl
    _ = _ := by rw [hpeek]

theorem parse_PO_value (v : String) (hp : plain_word v)
    (hv : starts_with v "-" = false) :
    parse ("nmap -PO " ++ v) =
      .ok { NmapScan.new with
              host_discovery.ip_protocol_ping := parse_protocol_list (some v),
              target_specification.targets := [v] } := by
  show parseLoop NmapScan.new true (tokenize ("nmap -PO " ++ v)) = _
  rw [show ("nmap -PO " ++ v : String) = joinWords ["nmap", "-PO", v] from rfl]
  rw [tokenize_words _
    (plain_cons _ (by decide) _ (plain_cons _ (by decide) _ (plain_singleton v hp)))]
  rw [parseLoop_skip_nmap]
  rw [parseLoop_flag0 _ _ "-PO" [v] (by decide) (parse_flag_PO _ v [] hv)]
  rw [parseLoop_target _ v _ hv]
  rfl

end NmapParser

/-! ## The dispatch table as data -/

namespace NmapParser

set_option maxHeartbeats 4000000 in
set_option maxRecDepth 16000 in
theorem unknown_flag_invalid (scan : NmapScan) (tok : String) (rest : List String)
    (h : knownFlag tok = false) :
    parse_flag scan tok rest = .error (.InvalidFlag tok) := by
  have h2 : (starts_with tok "-p" && decide (char_len tok > 2)) = false :=
    (Bool.or_eq_false_iff.mp h).2
  unfold parse_flag
  split
  all_goals try (exact absurd h (by decide))
  rw [h2]
  rfl

end NmapParser

/-! ## Required-value flags -/

namespace NmapParser

theorem withNumber_cases (b : Nat) (v : String) (rest : List String)
    (flag : String) (upd : Nat → NmapScan) :
    withNumber b (v :: rest) flag upd = .error (.InvalidValue flag v) ∨
      ∃ scan', withNumber b (v :: rest) flag upd = .ok (scan', 1) := by
  rcases h : rust_parse_uint b v with _ | n
  · left
    simp [withNumber, get_next_value, parse_number, h]
  · right
    exact ⟨upd n, by simp [withNumber, get_next_value, parse_number, h]⟩

theorem withFloat_cases (v : String) (rest : List String)
    (flag : String) (upd : Rat → NmapScan) :
    withFloat (v :: rest) flag upd = .error (.InvalidValue flag v) ∨
      ∃ scan', withFloat (v :: rest) flag upd = .ok (scan', 1) := by
  rcases h : rust_parse_f32 v with _ | q
  · left
    simp [withFloat, get_next_value, parse_float, h]
  · right
    exact ⟨upd q, by simp [withFloat, get_next_value, parse_float, h]⟩

theorem withIpAddr_cases (v : String) (rest : List String)
    (flag : String) (upd : IpAddr → NmapScan) :
    withIpAddr (v :: rest) flag upd = .error (.InvalidValue flag v) ∨
      ∃ scan', withIpAddr (v :: rest) flag upd = .ok (scan', 1) := by
  rcases h : ipaddr_from_str v with _ | ip
  · left
    simp [withIpAddr, get_next_value, h]
  · right
    exact ⟨upd ip, by simp [withIpAddr, get_next_value, h]⟩

set_option maxRecDepth 8000 in
theorem required_missing_value :
    ∀ f ∈ required_value_flags, ∀ scan : NmapScan,
      parse_flag scan f [] = .error (.MissingValue f) := by
  intro f hf scan
  fin_cases hf <;> rfl

set_option maxRecDepth 8000 in
theorem required_consumes_value :
    ∀ f ∈ required_value_flags, ∀ (scan : NmapScan) (v : String) (rest : List String),
      parse_flag scan f (v :: rest) = .error (.InvalidValue f v) ∨
        ∃ scan', parse_flag scan f (v :: rest) = .ok (scan', 1) := by
  intro f hf scan v rest
  fin_cases hf <;>
    first
      | exact Or.inr ⟨_, rfl⟩
      | exact withNumber_cases _ v rest _ _
      | exact withFloat_cases v rest _ _
      | exact withIpAddr_cases v rest _ _

end NmapParser

/-! ## The field registry (`src/scan/flags.rs`) -/



/-! ## The claims -/

open NmapParser NmapCommandBuilder

/-- Claim C6: the tokenizer splits on whitespace outside quotes; a double
quote toggles quoted mode and never appears in the token; inside quotes a
backslash takes the following character literally, so an escaped quote
yields a literal `"`; whitespace inside quotes is preserved; an
unterminated quote closes implicitly at end of input; and
`tokenize("\"a b\" c") = ["a b", "c"]`. -/
theorem claim_C6_tokenizer :
    (∀ ws : List String, (∀ w ∈ ws, plain_word w) → tokenize (joinWords ws) = ws) ∧
    tokenize "\"a b\" c" = ["a b", "c"] ∧
    tokenize "\"a\\\"b\"" = ["a\"b"] ∧
    tokenize "\"a b" = ["a b"] :=
  ⟨tokenize_words, rfl, rfl, rfl⟩

theorem claim_C6_tokenizer_witness :
    tokenize (joinWords ["ab", "c"]) = ["ab", "c"] :=
  claim_C6_tokenizer.1 ["ab", "c"] (by decide)

set_option maxRecDepth 8000 in
/-- Claim C7: a free-text value is wrapped in double quotes with embedded
quotes backslash-escaped exactly when it contains a space, a tab or a
double quote, and is emitted verbatim otherwise; in particular a Model
with `data_string = "a b"` builds `--data-string "a b"` and one with
`"ab"` builds `--data-string ab`. -/
theorem claim_C7_quote_if_needed :
    (∀ s : String, (' ' ∈ s.data ∨ '\t' ∈ s.data ∨ '"' ∈ s.data) →
        quote_if_needed s = "\"" ++ (⟨escape_quotes s.data⟩ : String) ++ "\"") ∧
    (∀ s : String, ¬ (' ' ∈ s.data ∨ '\t' ∈ s.data ∨ '"' ∈ s.data) →
        quote_if_needed s = s) ∧
    build { NmapScan.new with evasion.data_string := some "a b" } =
      "nmap -sS --data-string \"a b\"" ∧
    build { NmapScan.new with evasion.data_string := some "ab" } =
      "nmap -sS --data-string ab" := by
  refine ⟨?_, ?_, rfl, rfl⟩
  · intro s h
    unfold quote_if_needed
    rw [if_pos (by rcases h with h | h | h <;> simp [List.elem_iff, h])]
  · intro s h
    push_neg at h
    unfold quote_if_needed
    rw [if_neg (by simp [List.elem_iff, h.1, h.2.1, h.2.2])]

theorem claim_C7_quote_if_needed_witness :
    quote_if_needed "a b" = "\"a b\"" ∧ quote_if_needed "ab" = "ab" :=
  ⟨claim_C7_quote_if_needed.1 "a b" (Or.inl (by decide)),
   claim_C7_quote_if_needed.2.1 "ab" (by decide)⟩

set_option maxRecDepth 4000 in
/-- Claim C8: the field registry's `next` and `prev` are cyclic inverses
over the fixed enumeration order, and iterating `next` as many times as
the enumeration is long returns to the start. -/
theorem claim_C8_registry_cyclic :
    (∀ x : NmapFlag, NmapFlag.next (NmapFlag.prev x) = x) ∧
    (∀ x : NmapFlag, NmapFlag.prev (NmapFlag.next x) = x) ∧
    (∀ x : NmapFlag, Nat.iterate NmapFlag.next NmapFlag.all_flags.length x = x) := by
  refine ⟨?_, ?_, ?_⟩ <;> intro x <;> cases x <;> rfl

set_option maxRecDepth 8000 in
/-- Claim C2, counterexample to the literal statement: in
`nmap -p --bogus-flag host` the token `--bogus-flag` begins with `-` and
is absent from the dispatch table, yet the parse succeeds (the token was
consumed as the value of `-p`) instead of returning
`InvalidFlag("--bogus-flag")`. -/
theorem claim_C2_value_token_counterexample :
    parse "nmap -p --bogus-flag host" =
      .ok { NmapScan.new with
              ports.ports := some "--bogus-flag",
              target_specification.targets := ["host"] } ∧
    starts_with "--bogus-flag" "-" = true ∧
    knownFlag "--bogus-flag" = false :=
  ⟨rfl, rfl, by decide⟩

set_option maxRecDepth 8000 in
/-- Claim C2, amended: any `-`-prefixed token that is dispatched as a flag
(that is, not consumed as the value of a preceding flag) and is absent
from the dispatch table makes the parse fail with `InvalidFlag` naming
exactly that token; on an error only the error is returned, e.g.
`parse("nmap --bogus-flag host") = Err(InvalidFlag("--bogus-flag"))`. -/
theorem claim_C2_unknown_flag_dispatch :
    (∀ (scan : NmapScan) (tok : String) (rest : List String),
        starts_with tok "-" = true → knownFlag tok = false →
        parse_flag scan tok rest = .error (.InvalidFlag tok)) ∧
    parse "nmap --bogus-flag host" = .error (.InvalidFlag "--bogus-flag") :=
  ⟨fun scan tok rest _ h => unknown_flag_invalid scan tok rest h, rfl⟩

theorem claim_C2_unknown_flag_dispatch_witness :
    parse_flag NmapScan.new "--nonesuch" [] = .error (.InvalidFlag "--nonesuch") :=
  claim_C2_unknown_flag_dispatch.1 NmapScan.new "--nonesuch" [] (by decide) (by decide)

set_option maxRecDepth 8000 in
/-- Claim C10: every required-value flag consumes the immediately
following token unconditionally, even when it begins with `-` (so
`nmap -p -sS` stores `-sS` as the ports value and sets no scan
technique), and `MissingValue` is returned exactly when the flag is the
last token. -/
theorem claim_C10_required_value_flags :
    (∀ f ∈ required_value_flags, ∀ scan : NmapScan,
        parse_flag scan f [] = .error (.MissingValue f)) ∧
    (∀ f ∈ required_value_flags,
        ∀ (scan : NmapScan) (v : String) (rest : List String),
          parse_flag scan f (v :: rest) = .error (.InvalidValue f v) ∨
            ∃ scan', parse_flag scan f (v :: rest) = .ok (scan', 1)) ∧
    parse "nmap -p -sS" = .ok { NmapScan.new with ports.ports := some "-sS" } :=
  ⟨required_missing_value, required_consumes_value, rfl⟩

theorem claim_C10_required_value_flags_witness :
    parse_flag NmapScan.new "-p" [] = .error (.MissingValue "-p") ∧
    (parse_flag NmapScan.new "-p" ["-sS"] = .error (.InvalidValue "-p" "-sS") ∨
      ∃ scan', parse_flag NmapScan.new "-p" ["-sS"] = .ok (scan', 1)) :=
  ⟨claim_C10_required_value_flags.1 "-p" (by decide) NmapScan.new,
   claim_C10_required_value_flags.2.1 "-p" (by decide) NmapScan.new "-sS" []⟩

/-- Claim C9: for the comma-split numeric list values of `-PS`, `-PA`,
`-PU`, `-PY` and `-PO`, entries failing numeric coercion are silently
dropped while coercible entries are kept in order, and a non-numeric
entry never makes the whole parse fail. -/
theorem claim_C9_numeric_list_drop :
    ∀ v : String, plain_word v → starts_with v "-" = false →
      parse ("nmap -PS " ++ v) =
        .ok { NmapScan.new with
                host_discovery.syn_discovery :=
                  (split_comma v).filterMap (fun p => rust_parse_uint 65535 p),
                target_specification.targets := [v] } ∧
      parse ("nmap -PA " ++ v) =
        .ok { NmapScan.new with
                host_discovery.ack_discovery :=
                  (split_comma v).filterMap (fun p => rust_parse_uint 65535 p),
                target_specification.targets := [v] } ∧
      parse ("nmap -PU " ++ v) =
        .ok { NmapScan.new with
                host_discovery.udp_discovery :=
                  (split_comma v).filterMap (fun p => rust_parse_uint 65535 p),
                target_specification.targets := [v] } ∧
      parse ("nmap -PY " ++ v) =
        .ok { NmapScan.new with
                host_discovery.sctp_discovery :=
                  (split_comma v).filterMap (fun p => rust_parse_uint 65535 p),
                target_specification.targets := [v] } ∧
      parse ("nmap -PO " ++ v) =
        .ok { NmapScan.new with
                host_discovery.ip_protocol_ping :=
                  (split_comma v).filterMap (fun p => rust_parse_uint 255 p),
                target_specification.targets := [v] } :=
  fun v hp hv =>
    ⟨parse_PS_value v hp hv, parse_PA_value v hp hv, parse_PU_value v hp hv,
     parse_PY_value v hp hv, parse_PO_value v hp hv⟩

set_option maxRecDepth 8000 in
theorem claim_C9_numeric_list_drop_witness :
    parse ("nmap -PS " ++ "80,abc,443") =
      .ok { NmapScan.new with
              host_discovery.syn_discovery := [80, 443],
              target_specification.targets := ["80,abc,443"] } :=
  (claim_C9_numeric_list_drop "80,abc,443" (by decide) (by decide)).1

set_option maxRecDepth 8000 in
/-- Claim C1: the build/parse round trip FAILS on the code for Models with
a non-empty discovery port list: the builder emits the glued token
`-PS80`, which the parser's dispatch table does not recognise (its glued
fallback checks the lowercase prefix `-p`), so parsing the built command
returns `InvalidFlag("-PS80")` instead of recovering the Model. -/
theorem claim_C1_roundtrip_glued_discovery :
    parse (build { NmapScan.new with host_discovery.syn_discovery := [80] }) =
      .error (.InvalidFlag "-PS80") :=
  rfl

set_option maxRecDepth 8000 in
/-- Claim C3: the optional-value flags only PEEK at the following token:
parsing `nmap -PS 22` populates `syn_discovery` from `22` but leaves the
token in the stream, so `22` is additionally appended to the positional
target list, contradicting the specified consume semantics. -/
theorem claim_C3_optional_value_peeked_not_consumed :
    parse "nmap -PS 22" =
      .ok { NmapScan.new with
              host_discovery.syn_discovery := [22],
              target_specification.targets := ["22"] } :=
  rfl

set_option maxRecDepth 8000 in
/-- Claim C4, counterexample to the within-section order: a Model with
both `traceroute` set and `dns_servers` non-empty builds `--traceroute`
BEFORE `--dns-servers`, although `HostDiscovery` declares `dns_servers`
before `traceroute`; the claim asserts the opposite emission order. -/
theorem claim_C4_dns_traceroute_counterexample :
    tokenize (build { NmapScan.new with
        host_discovery.traceroute := true,
        host_discovery.dns_servers := ["8.8.8.8"] }) =
      ["nmap", "--traceroute", "--dns-servers", "8.8.8.8", "-sS"] ∧
    ¬ (List.indexOf "--dns-servers"
          ["nmap", "--traceroute", "--dns-servers", "8.8.8.8", "-sS"] <
        List.indexOf "--traceroute"
          ["nmap", "--traceroute", "--dns-servers", "8.8.8.8", "-sS"]) :=
  ⟨rfl, by decide⟩

/-- Claim C4, amended: the builder emits the sections in the fixed order
host discovery, scan technique, port specification, service detection,
script scan, OS detection, timing, evasion, output, miscellaneous, target
specification last; within host discovery the fields emit in the source's
fixed order, which follows the declaration order except that
`--traceroute` is emitted before `--dns-servers` and `--system-dns`
(unset optionals, false booleans and empty lists emit nothing). -/
theorem claim_C4_section_and_field_order :
    (∀ scan : NmapScan,
        build scan =
          "nmap"
            ++ build_host_discovery "" scan.host_discovery
            ++ build_scan_technique "" scan.scan_technique
            ++ build_port_specification "" scan.ports
            ++ build_service_detection "" scan.service_detection
            ++ build_script_scan "" scan.script_scan
            ++ build_os_detection "" scan.os_detection
            ++ build_timing_performance "" scan.timing
            ++ build_evasion_spoofing "" scan.evasion
            ++ build_output "" scan.output
            ++ build_misc "" scan.misc
            ++ build_target_specification "" scan) ∧
    (∀ hd : HostDiscovery, hd.traceroute = true → hd.dns_servers ≠ [] →
        build_host_discovery "" hd =
          ""
            ++ (if hd.list_scan then " -sL" else "")
            ++ (if hd.ping_scan then " -sn" else "")
            ++ (if hd.skip_port_scan then " -Pn" else "")
            ++ (if hd.syn_discovery.isEmpty then ""
                else " -PS" ++ format_port_list hd.syn_discovery)
            ++ (if hd.ack_discovery.isEmpty then ""
                else " -PA" ++ format_port_list hd.ack_discovery)
            ++ (if hd.udp_discovery.isEmpty then ""
                else " -PU" ++ format_port_list hd.udp_discovery)
            ++ (if hd.sctp_discovery.isEmpty then ""
                else " -PY" ++ format_port_list hd.sctp_discovery)
            ++ (if hd.icmp_echo then " -PE" else "")
            ++ (if hd.icmp_timestamp then " -PP" else "")
            ++ (if hd.icmp_netmask then " -PM" else "")
            ++ (if hd.ip_protocol_ping.isEmpty then ""
                else " -PO" ++ format_protocol_list hd.ip_protocol_ping)
            ++ " --traceroute"
            ++ (" --dns-servers " ++ String.intercalate "," hd.dns_servers)
            ++ (if hd.system_dns then " --system-dns" else "")) := by
  refine ⟨build_sections, ?_⟩
  intro hd htr hdns
  have hne : hd.dns_servers.isEmpty = false := List.isEmpty_eq_false.mpr hdns
  simp only [build_host_discovery, htr, hne]
  simp

theorem claim_C4_section_and_field_order_witness :
    build_host_discovery ""
        { traceroute := true, dns_servers := ["8.8.8.8"] } =
      " --traceroute --dns-servers 8.8.8.8" :=
  claim_C4_section_and_field_order.2
    { traceroute := true, dns_servers := ["8.8.8.8"] } rfl (by decide)

set_option maxRecDepth 8000 in
/-- Claim C5: the builder emits the combined token `-v`/`-vv` (`-d`/`-dd`)
for a count of 1 or 2 and one short token per unit for greater counts,
and the parser recovers exactly the integer count from either encoding
(shown through the full build/parse round trip and through the
repeated-single-token encoding). -/
theorem claim_C5_stacked_counts :
    tokenize (build { NmapScan.new with output.verbose := 1 }) =
      ["nmap", "-sS", "-v"] ∧
    tokenize (build { NmapScan.new with output.verbose := 2 }) =
      ["nmap", "-sS", "-vv"] ∧
    (∀ m : Nat,
        tokenize (build { NmapScan.new with output.verbose := m + 3 }) =
          "nmap" :: "-sS" :: List.replicate (m + 3) "-v") ∧
    (∀ n : Nat, n ≤ 255 →
        parse (build { NmapScan.new with output.verbose := n }) =
          .ok { NmapScan.new with output.verbose := n }) ∧
    (∀ n : Nat, n ≤ 255 →
        parse (joinWords ("nmap" :: List.replicate n "-v")) =
          .ok { NmapScan.new with output.verbose := n }) ∧
    tokenize (build { NmapScan.new with output.debug := 1 }) =
      ["nmap", "-sS", "-d"] ∧
    tokenize (build { NmapScan.new with output.debug := 2 }) =
      ["nmap", "-sS", "-dd"] ∧
    (∀ m : Nat,
        tokenize (build { NmapScan.new with output.debug := m + 3 }) =
          "nmap" :: "-sS" :: List.replicate (m + 3) "-d") ∧
    (∀ n : Nat, n ≤ 255 →
        parse (build { NmapScan.new with output.debug := n }) =
          .ok { NmapScan.new with output.debug := n }) ∧
    (∀ n : Nat, n ≤ 255 →
        parse (joinWords ("nmap" :: List.replicate n "-d")) =
          .ok { NmapScan.new with output.debug := n }) := by
  refine ⟨rfl, rfl, ?_, parse_build_verbose, parse_replicate_v,
          rfl, rfl, ?_, parse_build_debug, parse_replicate_d⟩
  · intro m
    rw [build_verbose_frag]
    exact tokenize_nmap_sS_rep_v (m + 3)
  · intro m
    rw [build_debug_frag]
    exact tokenize_nmap_sS_rep_d (m + 3)

set_option maxRecDepth 8000 in
theorem claim_C5_stacked_counts_witness :
    tokenize (build { NmapScan.new with output.verbose := 3 }) =
      "nmap" :: "-sS" :: List.replicate 3 "-v" ∧
    parse (build { NmapScan.new with output.verbose := 3 }) =
      .ok { NmapScan.new with output.verbose := 3 } ∧
    parse (joinWords ("nmap" :: List.replicate 2 "-v")) =
      .ok { NmapScan.new with output.verbose := 2 } ∧
    parse (build { NmapScan.new with output.debug := 3 }) =
      .ok { NmapScan.new with output.debug := 3 } :=
  ⟨claim_C5_stacked_counts.2.2.1 0,
   claim_C5_stacked_counts.2.2.2.1 3 (by omega),
   claim_C5_stacked_counts.2.2.2.2.1 2 (by omega),
   claim_C5_stacked_counts.2.2.2.2.2.2.2.2.1 3 (by omega)⟩
